import Mathlib

/-!
Shallow embedding of the pre-deployment simulation pipeline of the
Soroban-Registry backend (`src/backend/api/src/simulation/` and
`src/backend/api/src/simulation_handlers.rs`), together with theorems
settling the specification claims about it.

Machine-integer notes: the Rust code uses `u32`/`u64` counters and `i64`
cost amounts.  The counters are modelled as `Nat` holding the values of
the source's unsigned fields.  The `i64` cost arithmetic is modelled
exactly: the `u64 → i64` cast and every `i64` add/multiply wrap (release
mode two's complement, `wrapI64` below), which is reachable — the
parse-only scan puts no bound on `memory_pages`, so a crafted memory64
module can drive the multiply past `i64::MAX`.  `f64` quantities
(`wasm_size_kb`, `complexity_factor`, `total_cost_xlm`) are modelled as
exact rationals: `len as f64 / 1024.0` is exact in `f64` for every
length below `2^53`, the only regime a materialized buffer can occupy,
and the claims about the float fields concern their mathematical values,
not rounding.
-/

namespace SorobanSim

/-- `listStarts s pat`: `pat` is an initial segment of `s`
(models Rust `str::starts_with` on the underlying characters). -/
def listStarts {α : Type} [DecidableEq α] : List α → List α → Bool
  | _, [] => true
  | [], _ :: _ => false
  | a :: s, b :: p => decide (a = b) && listStarts s p

/-- `listHasSub s pat`: `pat` occurs as a contiguous subsequence of `s`
(models Rust `str::contains`). -/
def listHasSub {α : Type} [DecidableEq α] : List α → List α → Bool
  | [], pat => pat.isEmpty
  | a :: s, pat => listStarts (a :: s) pat || listHasSub s pat

/-- Rust `func_name.starts_with(pat)`. -/
def strStarts (s pat : String) : Bool := listStarts s.data pat.data

/-- Rust `func_name.contains(pat)`. -/
def strHasSub (s pat : String) : Bool := listHasSub s.data pat.data

/-- Rust `String::from_utf8_lossy(bytes).contains(pat)` for an ASCII
pattern: the lossy decoding maps ASCII bytes to themselves and every
other byte or multi-byte sequence to a non-ASCII character, so an ASCII
pattern occurs in the decoded string iff its byte sequence occurs in the
buffer. -/
def bytesHasSub (bytes : List Nat) (pat : String) : Bool :=
  listHasSub bytes (pat.data.map Char.toNat)

/-! ## Structural validator (`simulation/wasm_validator.rs`)

The byte buffer is streamed by the external `wasmparser` crate, which is
not part of this repository; its output is modelled as the list of
payload items (`Ok(payload)` or `Err(message)`) that `parse_all` yields
for the buffer.  The validator's own logic — the `match` over payloads
and the post-scan policy checks — is embedded faithfully below. -/

/-- The kind of an export entry in the export section.  `validate_wasm`
never inspects this field. -/
inductive ExportKind where
  | func
  | table
  | memory
  | global
  | tag
deriving DecidableEq

structure ExportEntry where
  name : String
  kind : ExportKind
deriving DecidableEq

structure ImportEntry where
  module : String
  name : String
deriving DecidableEq

structure MemoryType where
  initial : Nat
deriving DecidableEq

deriving instance DecidableEq for Except

/-- One `wasmparser::Payload` as matched by `validate_wasm`; payload
variants the code ignores are collapsed into `other`. -/
inductive Payload where
  | version (num : Nat)
  | functionSection (count : Nat)
  | tableSection (count : Nat)
  | memorySection (entries : List (Except String MemoryType))
  | dataSection (count : Nat)
  | exportSection (entries : List (Except String ExportEntry))
  | importSection (entries : List (Except String ImportEntry))
  | codeSectionStart (count : Nat)
  | other
deriving DecidableEq

/-- One item of the `parse_all` iterator: `Ok(payload)` or `Err(e)`. -/
abbrev ParseItem := Except String Payload

structure WasmValidationResult where
  valid : Bool
  errors : List String
  warnings : List String
  function_count : Nat
  table_count : Nat
  data_section_size : Nat
  memory_pages : Nat
  export_functions : List String
  import_functions : List String
deriving DecidableEq

/-- The mutable locals of `validate_wasm` during the payload loop. -/
structure ScanState where
  errors : List String
  warnings : List String
  function_count : Nat
  table_count : Nat
  data_section_size : Nat
  memory_pages : Nat
  export_functions : List String
  import_functions : List String
deriving DecidableEq

def initScanState : ScanState :=
  { errors := [], warnings := [], function_count := 0, table_count := 0
    data_section_size := 0, memory_pages := 0
    export_functions := [], import_functions := [] }

/-- Names pushed by the export-section loop: one per `Ok` entry,
regardless of the entry's kind. -/
def exportEntryNames (es : List (Except String ExportEntry)) : List String :=
  es.filterMap fun e => match e with
    | .ok exp => some exp.name
    | .error _ => none

/-- Names pushed by the import-section loop: `module::name` per `Ok`
entry. -/
def importEntryNames (is : List (Except String ImportEntry)) : List String :=
  is.filterMap fun i => match i with
    | .ok imp => some (imp.module ++ "::" ++ imp.name)
    | .error _ => none

/-- The body of the `for payload in parser.parse_all(...)` loop. -/
def processPayload (st : ScanState) (p : ParseItem) : ScanState :=
  match p with
  | .ok (.version num) =>
      if num ≠ 1 then
        { st with warnings := st.warnings ++ ["Unusual WASM version: " ++ toString num] }
      else st
  | .ok (.functionSection c) => { st with function_count := c }
  | .ok (.tableSection c) => { st with table_count := c }
  | .ok (.memorySection ms) =>
      { st with memory_pages := ms.foldl (fun acc m => match m with
          | .ok mem => mem.initial
          | .error _ => acc) st.memory_pages }
  | .ok (.dataSection c) => { st with data_section_size := c }
  | .ok (.exportSection es) =>
      { st with export_functions := st.export_functions ++ exportEntryNames es }
  | .ok (.importSection is) =>
      { st with import_functions := st.import_functions ++ importEntryNames is }
  | .ok (.codeSectionStart c) =>
      if c = 0 then
        { st with warnings := st.warnings ++ ["No code section found - contract may be empty"] }
      else st
  | .error e => { st with errors := st.errors ++ ["WASM parsing error: " ++ e] }
  | .ok .other => st

/-- `validate_wasm` (wasm_validator.rs:17-100).  `valid` is computed from
`errors` *before* the zero-function policy check pushes its error. -/
def validate_wasm (payloads : List ParseItem) : WasmValidationResult :=
  let st := payloads.foldl processPayload initScanState
  let valid := st.errors.isEmpty
  let errors :=
    if st.function_count = 0 then
      st.errors ++ ["No functions found in WASM binary"]
    else st.errors
  let warnings :=
    if st.export_functions.isEmpty then
      st.warnings ++ ["No exported functions found"]
    else st.warnings
  { valid := valid, errors := errors, warnings := warnings
    function_count := st.function_count, table_count := st.table_count
    data_section_size := st.data_section_size, memory_pages := st.memory_pages
    export_functions := st.export_functions
    import_functions := st.import_functions }

/-! ## ABI extractor (`simulation/abi_extractor.rs`) -/

structure FunctionInfo where
  name : String
  param_count : Nat
  return_type : Option String
  is_view : Bool
deriving DecidableEq

structure AbiExtractionResult where
  success : Bool
  errors : List String
  functions : List FunctionInfo
  types : List String
deriving DecidableEq

structure ExtractedFunction where
  name : String
  param_count : Nat
  return_type : Option String
  is_view : Bool
deriving DecidableEq

structure ExtractedSpec where
  functions : List ExtractedFunction
deriving DecidableEq

/-- The fixed vocabulary of common Soroban entry-point names. -/
def common_funcs : List String :=
  ["init", "set_admin", "get_admin", "transfer", "balance",
   "mint", "burn", "vote", "proposal"]

def guess_param_count (func_name : String) : Nat :=
  if func_name = "init" then 1
  else if func_name = "get_admin" ∨ func_name = "balance" then 0
  else if func_name = "set_admin" ∨ func_name = "transfer" ∨ func_name = "mint" then 2
  else if func_name = "burn" then 1
  else 1

def guess_return_type (func_name : String) : Option String :=
  if func_name = "get_admin" ∨ func_name = "balance" then some "Address"
  else some "void"

def is_view_function (func_name : String) : Bool :=
  func_name = "get_admin" || func_name = "balance"

/-- `extract_embedded_spec` (abi_extractor.rs:62-101): scan the buffer
for each vocabulary term, synthesize a record per hit, fail iff no term
was found. -/
def extract_embedded_spec (wasm_bytes : List Nat) : Except String ExtractedSpec :=
  let functions := common_funcs.filterMap fun func_name =>
    if bytesHasSub wasm_bytes func_name then
      some { name := func_name
             param_count := guess_param_count func_name
             return_type := guess_return_type func_name
             is_view := is_view_function func_name }
    else none
  if functions.isEmpty then .error "No contract functions detected"
  else .ok { functions := functions }

/-- `extract_abi` (abi_extractor.rs:20-60): both branches return
`success: true` with the never-populated `errors` vector. -/
def extract_abi (wasm_bytes : List Nat) : AbiExtractionResult :=
  match extract_embedded_spec wasm_bytes with
  | .ok spec =>
      { success := true
        errors := []
        functions := spec.functions.map fun f =>
          { name := f.name, param_count := f.param_count
            return_type := f.return_type, is_view := f.is_view }
        types := spec.functions.map fun f => f.name }
  | .error _ =>
      { success := true, errors := [], functions := [], types := [] }

/-! ## Gas estimator (`simulation/gas_estimator.rs`) -/

def STROOPS_PER_XLM : Int := 10000000
def BASE_DEPLOYMENT_COST : Int := 50000
def COST_PER_KB : Int := 5000
def COST_PER_FUNCTION : Int := 1000
def COST_PER_TABLE : Int := 2000
def COST_PER_MEMORY_PAGE : Int := 10000

/-- Two's-complement wrap of an integer into the `i64` range
`[-2^63, 2^63)`: the result of a release-mode `i64` add/multiply and of
the `u64 → i64` / `usize → i64` casts. -/
def wrapI64 (x : Int) : Int :=
  (x + 9223372036854775808) % 18446744073709551616 - 9223372036854775808

structure GasEstimationResult where
  total_cost_stroops : Int
  total_cost_xlm : ℚ
  deployment_cost_stroops : Int
  storage_cost_stroops : Int
  wasm_size_kb : ℚ
  complexity_factor : ℚ
deriving DecidableEq

/-- `calculate_complexity_factor` (gas_estimator.rs:70-83), with the
`f64` arithmetic modelled over `ℚ`. -/
def calculate_complexity_factor (function_count table_count : Nat)
    (memory_pages : Nat) (wasm_size_kb : ℚ) : ℚ :=
  let func_factor := min ((function_count : ℚ) / 100) 1 * 0.3
  let table_factor := min ((table_count : ℚ) / 10) 1 * 0.2
  let memory_factor := min ((memory_pages : ℚ) / 1024) 1 * 0.2
  let size_factor := min (wasm_size_kb / 100) 1 * 0.3
  func_factor + table_factor + memory_factor + size_factor

/-- `estimate_gas` (gas_estimator.rs:21-68), with every `i64` operation
wrapped.  `wasm_bytes.len() as i64` is `wrapI64` of the length;
`wasm_size_bytes as f64 / 1024.0` is modelled as the exact quotient,
which is what `f64` computes for every length below `2^53` (a
materialized buffer cannot be larger); `wasm_size_kb as i64` truncates
it toward zero, i.e. Nat division of the length by 1024 in that regime.
`memory_pages as i64` is the wrapping `u64 → i64` cast — the scan puts
no bound on `memory_pages`, so this and the following multiply can
genuinely wrap.  The `i64` storage division truncates toward zero
(`Int.tdiv`) and cannot overflow for divisor 10. -/
def estimate_gas (wasm_len : Nat) (validation_result : WasmValidationResult) :
    GasEstimationResult :=
  let wasm_size_bytes : Int := wrapI64 wasm_len
  let wasm_size_kb : ℚ := (wasm_size_bytes : ℚ) / 1024
  let size_cost := wrapI64 (((wasm_len / 1024 : Nat) : Int) * COST_PER_KB)
  let function_cost :=
    wrapI64 ((validation_result.function_count : Int) * COST_PER_FUNCTION)
  let table_cost :=
    wrapI64 ((validation_result.table_count : Int) * COST_PER_TABLE)
  let memory_cost :=
    wrapI64 (wrapI64 (validation_result.memory_pages : Int) * COST_PER_MEMORY_PAGE)
  let deployment_cost :=
    wrapI64 (wrapI64 (wrapI64 (wrapI64 (BASE_DEPLOYMENT_COST + size_cost) +
      function_cost) + table_cost) + memory_cost)
  let storage_cost :=
    (wrapI64 ((validation_result.data_section_size : Int) * COST_PER_KB)).tdiv 10
  let total_cost_stroops := wrapI64 (deployment_cost + storage_cost)
  let complexity_factor := calculate_complexity_factor
    validation_result.function_count validation_result.table_count
    validation_result.memory_pages wasm_size_kb
  let total_cost_xlm : ℚ := (total_cost_stroops : ℚ) / (STROOPS_PER_XLM : ℚ)
  { total_cost_stroops := total_cost_stroops
    total_cost_xlm := total_cost_xlm
    deployment_cost_stroops := deployment_cost
    storage_cost_stroops := storage_cost
    wasm_size_kb := wasm_size_kb
    complexity_factor := complexity_factor }

/-! ## Performance analyzer (`simulation/performance_analyzer.rs`) -/

structure PerformanceWarning where
  code : String
  message : String
  severity : String
deriving DecidableEq

structure FunctionAnalysis where
  name : String
  complexity : String
  recommendation : Option String
deriving DecidableEq

structure PerformanceAnalysisResult where
  estimated_execution_time_ms : Nat
  memory_estimate_kb : Nat
  warnings : List PerformanceWarning
  function_analysis : List FunctionAnalysis
deriving DecidableEq

/-- `analyze_function` (performance_analyzer.rs:116-151): the nested
name-heuristic classification. -/
def analyze_function (func_name : String) (abi_result : AbiExtractionResult) :
    FunctionAnalysis :=
  let has_abi := abi_result.functions.any fun f => f.name == func_name
  let cr : String × Option String :=
    if strStarts func_name "get_" || strHasSub func_name "_view" then
      ("low", none)
    else if strHasSub func_name "iterate" || strHasSub func_name "batch" then
      ("high", some "Consider adding pagination for large datasets")
    else if has_abi then
      match abi_result.functions.find? (fun f => f.name == func_name) with
      | some f =>
          if f.param_count > 5 then
            ("medium", some "Consider grouping parameters into structs")
          else ("low", none)
      | none => ("unknown", none)
    else ("unknown", none)
  { name := func_name, complexity := cr.1, recommendation := cr.2 }

/-- `analyze_performance` (performance_analyzer.rs:27-114), warnings in
the source's push order. -/
def analyze_performance (wasm_len : Nat)
    (validation_result : WasmValidationResult)
    (abi_result : AbiExtractionResult) : PerformanceAnalysisResult :=
  let wasm_size_kb := wasm_len / 1024
  let estimated_execution_time_ms := 1 * max wasm_size_kb 1
  let memory_estimate_kb := validation_result.memory_pages * 64
  let warnings :=
    (if wasm_size_kb > 100 then
      [{ code := "LARGE_WASM"
         message := "WASM size is " ++ toString wasm_size_kb ++ " KB - consider optimizing"
         severity := "medium" : PerformanceWarning }]
    else []) ++
    (if validation_result.memory_pages > 512 then
      [{ code := "HIGH_MEMORY"
         message := "Memory allocation is " ++ toString validation_result.memory_pages
           ++ " pages - may exceed typical limits"
         severity := "high" : PerformanceWarning }]
    else []) ++
    (if validation_result.table_count > 10 then
      [{ code := "MANY_TABLES"
         message := toString validation_result.table_count ++ " tables detected - may impact performance"
         severity := "low" : PerformanceWarning }]
    else []) ++
    (if ¬ validation_result.import_functions.isEmpty ∧
        validation_result.import_functions.length > 5 then
      [{ code := "MANY_IMPORTS"
         message := toString validation_result.import_functions.length
           ++ " imported functions - consider bundling"
         severity := "low" : PerformanceWarning }]
    else []) ++
    (if validation_result.data_section_size > 50 then
      [{ code := "LARGE_DATA"
         message := "Large data section (" ++ toString validation_result.data_section_size
           ++ " entries) - consider lazy loading"
         severity := "medium" : PerformanceWarning }]
    else [])
  let function_analysis :=
    validation_result.export_functions.map fun func_name =>
      analyze_function func_name abi_result
  { estimated_execution_time_ms := estimated_execution_time_ms
    memory_estimate_kb := memory_estimate_kb
    warnings := warnings
    function_analysis := function_analysis }

/-! ## Simulation handler (`simulation_handlers.rs`)

`simulate_deploy` is parameterized by the outcomes of the two external
collaborators it calls before the pipeline proper: the base64 decode of
`req.wasm_binary` (the `base64` crate) and `validate_contract_id` (the
identifier grammar owned by a module outside the simulation core), and
by the `wasmparser` payload stream of the decoded buffer.  The elapsed
wall-clock milliseconds measured at the end are a parameter as well. -/

structure SimulationError where
  code : String
  message : String
  field : Option String
deriving DecidableEq

structure SimulationWarning where
  code : String
  message : String
  severity : Option String
deriving DecidableEq

structure GasEstimate where
  total_cost_stroops : Int
  total_cost_xlm : ℚ
  wasm_size_kb : ℚ
  complexity_factor : ℚ
  deployment_cost_stroops : Int
  storage_cost_stroops : Int
deriving DecidableEq

structure PerformanceMetrics where
  estimated_execution_time_ms : Nat
  memory_estimate_kb : Nat
  function_count : Nat
  table_size_bytes : Nat
  data_section_bytes : Nat
  warnings : List String
deriving DecidableEq

structure ContractFunctionInfo where
  name : String
  param_count : Nat
  return_type : Option String
  is_view : Bool
deriving DecidableEq

structure SimulationResult where
  valid : Bool
  errors : List SimulationError
  warnings : List SimulationWarning
  gas_estimate : GasEstimate
  performance_metrics : PerformanceMetrics
  abi_preview : Option (Nat × Nat)
  contract_functions : Option (List ContractFunctionInfo)
deriving DecidableEq

/-- The all-zero `GasEstimate` literal each failure branch constructs. -/
def zeroGas : GasEstimate :=
  { total_cost_stroops := 0, total_cost_xlm := 0, wasm_size_kb := 0
    complexity_factor := 0, deployment_cost_stroops := 0
    storage_cost_stroops := 0 }

/-- The all-zero `PerformanceMetrics` literal each failure branch
constructs. -/
def zeroPerf : PerformanceMetrics :=
  { estimated_execution_time_ms := 0, memory_estimate_kb := 0
    function_count := 0, table_size_bytes := 0, data_section_bytes := 0
    warnings := [] }

/-- The single-error early-return `SimulationResult` each of the four
input checks constructs. -/
def failResult (code message fld : String) : SimulationResult :=
  { valid := false
    errors := [{ code := code, message := message, field := some fld }]
    warnings := []
    gas_estimate := zeroGas
    performance_metrics := zeroPerf
    abi_preview := none
    contract_functions := none }

/-- `simulate_deploy` (simulation_handlers.rs:19-282). -/
def simulate_deploy (decodeResult : Except String (List Nat))
    (payloads : List ParseItem) (contractIdResult : Except String Unit)
    (name : String) (elapsed_ms : Nat) : SimulationResult :=
  match decodeResult with
  | .error e =>
      failResult "InvalidBase64" ("Failed to decode base64 WASM binary: " ++ e)
        "wasm_binary"
  | .ok wasm_binary =>
    if wasm_binary.isEmpty then
      failResult "EmptyWasm" "WASM binary is empty" "wasm_binary"
    else match contractIdResult with
      | .error e => failResult "InvalidContractId" e "contract_id"
      | .ok _ =>
        if name.isEmpty then
          failResult "InvalidName" "Contract name cannot be empty" "name"
        else
          let validation_result := validate_wasm payloads
          if ¬ validation_result.valid then
            { valid := false
              errors := validation_result.errors.map fun e =>
                { code := "WasmValidationError", message := e
                  field := some "wasm_binary" }
              warnings := []
              gas_estimate := zeroGas
              performance_metrics := zeroPerf
              abi_preview := none
              contract_functions := none }
          else
            let abi_result := extract_abi wasm_binary
            let gas_result := estimate_gas wasm_binary.length validation_result
            let performance_result :=
              analyze_performance wasm_binary.length validation_result abi_result
            let warnings :=
              (validation_result.warnings.map fun w =>
                ({ code := "WasmWarning", message := w
                   severity := some "low" } : SimulationWarning)) ++
              (performance_result.warnings.map fun w =>
                ({ code := w.code, message := w.message
                   severity := some w.severity } : SimulationWarning))
            let contract_functions := abi_result.functions.map fun f =>
              ({ name := f.name, param_count := f.param_count
                 return_type := f.return_type
                 is_view := f.is_view } : ContractFunctionInfo)
            let slow_warning : SimulationWarning :=
              { code := "SlowSimulation"
                message := "Simulation took " ++ toString elapsed_ms
                  ++ "ms - approaching 5s limit"
                severity := some "medium" }
            let final_warnings :=
              if elapsed_ms > 4000 then warnings ++ [slow_warning]
              else warnings
            { valid := true
              errors := []
              warnings := final_warnings
              gas_estimate :=
                { total_cost_stroops := gas_result.total_cost_stroops
                  total_cost_xlm := gas_result.total_cost_xlm
                  wasm_size_kb := gas_result.wasm_size_kb
                  complexity_factor := gas_result.complexity_factor
                  deployment_cost_stroops := gas_result.deployment_cost_stroops
                  storage_cost_stroops := gas_result.storage_cost_stroops }
              performance_metrics :=
                { estimated_execution_time_ms :=
                    performance_result.estimated_execution_time_ms
                  memory_estimate_kb := performance_result.memory_estimate_kb
                  function_count := validation_result.function_count
                  table_size_bytes := validation_result.table_count * 8
                  data_section_bytes := validation_result.data_section_size
                  warnings := [] }
              abi_preview :=
                if ¬ abi_result.types.isEmpty then
                  some (abi_result.functions.length, abi_result.types.length)
                else none
              contract_functions :=
                if contract_functions.isEmpty then none
                else some contract_functions }

/-! ## Auxiliary definitions for the claims -/

/-- The specification's ordered priority rules for classifying an
exported function (spec §4.5), written as a flat rule list: accessor
name → low; iteration/batch name → high with pagination advice; else a
matching interface-preview entry with more than 5 guessed parameters →
medium with grouping advice; else a matching entry → low; else unknown. -/
def classifySpecRules (n : String) (abi : AbiExtractionResult) :
    String × Option String :=
  if strStarts n "get_" || strHasSub n "_view" then ("low", none)
  else if strHasSub n "iterate" || strHasSub n "batch" then
    ("high", some "Consider adding pagination for large datasets")
  else match abi.functions.find? (fun f => f.name == n) with
    | some f =>
        if f.param_count > 5 then
          ("medium", some "Consider grouping parameters into structs")
        else ("low", none)
    | none => ("unknown", none)

/-- Export names contributed by one payload item, ignoring export
kinds. -/
def itemExportNames : ParseItem → List String
  | .ok (.exportSection es) => exportEntryNames es
  | _ => []

/-- All export names of a payload stream, in stream order, ignoring
export kinds. -/
def allExportNames (ps : List ParseItem) : List String :=
  (ps.map itemExportNames).flatten

/-- The 8-byte WebAssembly preamble `\0asm` + version 1: a buffer whose
payload stream is just `Version 1` — zero sections, zero functions. -/
def wasmHeaderBytes : List Nat := [0, 97, 115, 109, 1, 0, 0, 0]

/-- Payload stream of a module that parses cleanly with no function
section. -/
def zeroFunctionPayloads : List ParseItem := [.ok (.version 1)]

/-- Another cleanly-parsing zero-function payload stream. -/
def zeroFunctionPayloads2 : List ParseItem :=
  [.ok (.version 1), .ok (.dataSection 0)]

/-- Payload stream with one export section holding a table export, a
memory export and a global export — no function exports. -/
def demoExportPayloads : List ParseItem :=
  [.ok (.functionSection 2),
   .ok (.exportSection
     [.ok { name := "t", kind := .table },
      .ok { name := "m", kind := .memory },
      .ok { name := "g", kind := .global }])]

/-- Structural report of the spec's 2 KB scenario: 1 function, 0 tables,
1 memory page, empty data section. -/
def exampleModule : WasmValidationResult :=
  { valid := true, errors := [], warnings := []
    function_count := 1, table_count := 0, data_section_size := 0
    memory_pages := 1, export_functions := ["run"], import_functions := [] }

/-- A strictly larger structural report, for the monotonicity witness. -/
def exampleModuleLarger : WasmValidationResult :=
  { valid := true, errors := [], warnings := []
    function_count := 7, table_count := 3, data_section_size := 40
    memory_pages := 6, export_functions := ["run"], import_functions := [] }

/-- Structural report delivered by a crafted memory64 module: the
parse-only scan accepts a limits entry with `initial = u64::MAX`, so
`memory_pages` reaches `2^64 - 1` and `memory_pages as i64` wraps to
`-1`. -/
def maxMemModule : WasmValidationResult :=
  { valid := true, errors := [], warnings := []
    function_count := 0, table_count := 0, data_section_size := 0
    memory_pages := 18446744073709551615
    export_functions := [], import_functions := [] }

/-- The same report with `memory_pages` dropped to zero. -/
def maxMemModule0 : WasmValidationResult :=
  { maxMemModule with memory_pages := 0 }

/-! ## Theorems -/

/-- Claim C2 (code bug): the structural validator's advertised invariant
`valid == errors.is_empty()` fails, because `valid` is computed at
wasm_validator.rs:79 before the zero-function policy error is pushed at
line 82: a cleanly parsing module with no function section is returned
with `valid = true` and a non-empty `errors` list. -/
theorem validateWasm_valid_errors_invariant_violated :
    (validate_wasm zeroFunctionPayloads2).valid = true ∧
    (validate_wasm zeroFunctionPayloads2).errors ≠ [] ∧
    ¬ ((validate_wasm zeroFunctionPayloads2).valid =
        (validate_wasm zeroFunctionPayloads2).errors.isEmpty) := by
  decide

/-- Claim C1 (code bug): a buffer that decodes to zero total functions
is supposed to yield `valid:false` with a `NoFunctions`-class error, but
`validate_wasm` computes `valid` before pushing "No functions found in
WASM binary", so the validator reports `valid = true` with the error
stranded in its list, and `simulate_deploy` consequently returns a
`valid = true` result with no errors at all. -/
theorem simulateDeploy_zero_functions_reported_valid :
    (validate_wasm zeroFunctionPayloads).function_count = 0 ∧
    (validate_wasm zeroFunctionPayloads).valid = true ∧
    (validate_wasm zeroFunctionPayloads).errors =
      ["No functions found in WASM binary"] ∧
    (simulate_deploy (.ok wasmHeaderBytes) zeroFunctionPayloads
      (.ok ()) "test" 0).valid = true ∧
    (simulate_deploy (.ok wasmHeaderBytes) zeroFunctionPayloads
      (.ok ()) "test" 0).errors = [] := by
  decide

/-- Claim C9: for every input byte sequence the ABI extractor reports
`success = true` with an empty error list — its only internal failure
(no vocabulary term found) is swallowed into an empty function list. -/
theorem extractAbi_always_success_no_errors :
    ∀ wasm_bytes : List Nat, (extract_abi wasm_bytes).success = true ∧
      (extract_abi wasm_bytes).errors = [] := by
  intro bs
  unfold extract_abi
  cases extract_embedded_spec bs <;> exact ⟨rfl, rfl⟩

/-- Integers already inside `[0, 2^63)` pass through the `i64` wrap
unchanged. -/
theorem wrapI64_id (x : Int) (h0 : 0 ≤ x)
    (h1 : x < 9223372036854775808) : wrapI64 x = x := by
  unfold wrapI64
  rw [Int.emod_eq_of_lt (by omega) (by omega)]
  omega

/-- In the regime where no `i64` operation wraps — length below `2^53`,
`u32`-sized counts, memory pages within the WebAssembly memory64 limit
`2^48` — the total cost is the exact linear formula. -/
theorem estimateGas_total_inrange (wasm_len : Nat) (v : WasmValidationResult)
    (hlen : wasm_len < 2^53) (hfc : v.function_count < 2^32)
    (htc : v.table_count < 2^32) (hds : v.data_section_size < 2^32)
    (hmp : v.memory_pages ≤ 2^48) :
    (estimate_gas wasm_len v).total_cost_stroops =
      BASE_DEPLOYMENT_COST + ((wasm_len / 1024 : Nat) : Int) * COST_PER_KB +
      (v.function_count : Int) * COST_PER_FUNCTION +
      (v.table_count : Int) * COST_PER_TABLE +
      (v.memory_pages : Int) * COST_PER_MEMORY_PAGE +
      (v.data_section_size : Int) * COST_PER_KB / 10 := by
  have htd : ((v.data_section_size : Int) * 5000).tdiv 10 =
      (v.data_section_size : Int) * 5000 / 10 :=
    Int.tdiv_eq_ediv (by positivity) (by norm_num)
  simp (disch := omega) only [estimate_gas, wrapI64_id, htd,
    BASE_DEPLOYMENT_COST, COST_PER_KB, COST_PER_FUNCTION, COST_PER_TABLE,
    COST_PER_MEMORY_PAGE]

/-- Counterexample to claim C4 as stated: at `memory_pages = u64::MAX`
(deliverable by a parse-clean memory64 module) the `u64 → i64` cast
wraps to `-1`, `memory_cost` becomes `-10000`, and the program's total
cost is 40000 — not the claimed formula's value. -/
theorem estimateGas_formula_fails_at_wrap :
    (estimate_gas 0 maxMemModule).total_cost_stroops = 40000 ∧
    (estimate_gas 0 maxMemModule).total_cost_stroops ≠
      BASE_DEPLOYMENT_COST + ((0 / 1024 : Nat) : Int) * COST_PER_KB +
      (maxMemModule.function_count : Int) * COST_PER_FUNCTION +
      (maxMemModule.table_count : Int) * COST_PER_TABLE +
      (maxMemModule.memory_pages : Int) * COST_PER_MEMORY_PAGE +
      (maxMemModule.data_section_size : Int) * COST_PER_KB / 10 := by
  decide

/-- Claim C4 (amended): in the `i64`-exact regime — byte length below
`2^53`, `u32` counts below `2^32`, `memory_pages` at most the `2^48`
memory64 page limit — the total cost equals
`BASE_DEPLOYMENT_COST + floor(size_kb)*COST_PER_KB +
function_count*COST_PER_FUNCTION + table_count*COST_PER_TABLE +
memory_pages*COST_PER_MEMORY_PAGE +
floor(data_section_entries*COST_PER_KB/10)`; in particular the 2 KB /
1-function / 0-table / 1-memory-page scenario costs
`BASE_DEPLOYMENT_COST + 2*COST_PER_KB + 1*COST_PER_FUNCTION +
1*COST_PER_MEMORY_PAGE`.  Outside the regime the i64 arithmetic wraps
and the formula fails (`estimateGas_formula_fails_at_wrap`). -/
theorem estimateGas_total_cost_formula_inrange :
    (∀ (wasm_len : Nat) (v : WasmValidationResult),
      wasm_len < 2^53 → v.function_count < 2^32 → v.table_count < 2^32 →
      v.data_section_size < 2^32 → v.memory_pages ≤ 2^48 →
      (estimate_gas wasm_len v).total_cost_stroops =
        BASE_DEPLOYMENT_COST + ((wasm_len / 1024 : Nat) : Int) * COST_PER_KB +
        (v.function_count : Int) * COST_PER_FUNCTION +
        (v.table_count : Int) * COST_PER_TABLE +
        (v.memory_pages : Int) * COST_PER_MEMORY_PAGE +
        (v.data_section_size : Int) * COST_PER_KB / 10) ∧
    (estimate_gas 2048 exampleModule).total_cost_stroops =
      BASE_DEPLOYMENT_COST + 2 * COST_PER_KB + 1 * COST_PER_FUNCTION +
      1 * COST_PER_MEMORY_PAGE := by
  exact ⟨fun wasm_len v h1 h2 h3 h4 h5 =>
    estimateGas_total_inrange wasm_len v h1 h2 h3 h4 h5, by decide⟩

/-- Witness for the amended C4 at the 2 KB scenario. -/
theorem estimateGas_total_cost_formula_inrange_witness :
    (2048 < 2^53 ∧ exampleModule.function_count < 2^32 ∧
     exampleModule.table_count < 2^32 ∧
     exampleModule.data_section_size < 2^32 ∧
     exampleModule.memory_pages ≤ 2^48) ∧
    (estimate_gas 2048 exampleModule).total_cost_stroops =
      BASE_DEPLOYMENT_COST + ((2048 / 1024 : Nat) : Int) * COST_PER_KB +
      (exampleModule.function_count : Int) * COST_PER_FUNCTION +
      (exampleModule.table_count : Int) * COST_PER_TABLE +
      (exampleModule.memory_pages : Int) * COST_PER_MEMORY_PAGE +
      (exampleModule.data_section_size : Int) * COST_PER_KB / 10 :=
  ⟨⟨by decide, by decide, by decide, by decide, by decide⟩,
   estimateGas_total_cost_formula_inrange.1 2048 exampleModule (by decide)
     (by decide) (by decide) (by decide) (by decide)⟩

/-- Claim C5: for every structural input — all-zero and arbitrarily
large counts and sizes alike — the complexity factor stays in the
closed interval `[0,1]`: each of the four terms is capped at its weight
before summation and the weights sum to one. -/
theorem complexity_factor_bounds :
    ∀ (fc tc mp : Nat) (kb : ℚ), 0 ≤ kb →
      0 ≤ calculate_complexity_factor fc tc mp kb ∧
      calculate_complexity_factor fc tc mp kb ≤ 1 := by
  intro fc tc mp kb hkb
  simp only [calculate_complexity_factor]
  have h1a : (0:ℚ) ≤ min ((fc : ℚ) / 100) 1 :=
    le_min (by positivity) zero_le_one
  have h1b : min ((fc : ℚ) / 100) 1 ≤ 1 := min_le_right _ _
  have h2a : (0:ℚ) ≤ min ((tc : ℚ) / 10) 1 :=
    le_min (by positivity) zero_le_one
  have h2b : min ((tc : ℚ) / 10) 1 ≤ 1 := min_le_right _ _
  have h3a : (0:ℚ) ≤ min ((mp : ℚ) / 1024) 1 :=
    le_min (by positivity) zero_le_one
  have h3b : min ((mp : ℚ) / 1024) 1 ≤ 1 := min_le_right _ _
  have h4a : (0:ℚ) ≤ min (kb / 100) 1 :=
    le_min (div_nonneg hkb (by norm_num)) zero_le_one
  have h4b : min (kb / 100) 1 ≤ 1 := min_le_right _ _
  constructor
  · have t1 := mul_nonneg h1a (by norm_num : (0:ℚ) ≤ 0.3)
    have t2 := mul_nonneg h2a (by norm_num : (0:ℚ) ≤ 0.2)
    have t3 := mul_nonneg h3a (by norm_num : (0:ℚ) ≤ 0.2)
    have t4 := mul_nonneg h4a (by norm_num : (0:ℚ) ≤ 0.3)
    linarith
  · have t1 := mul_le_mul_of_nonneg_right h1b (by norm_num : (0:ℚ) ≤ 0.3)
    have t2 := mul_le_mul_of_nonneg_right h2b (by norm_num : (0:ℚ) ≤ 0.2)
    have t3 := mul_le_mul_of_nonneg_right h3b (by norm_num : (0:ℚ) ≤ 0.2)
    have t4 := mul_le_mul_of_nonneg_right h4b (by norm_num : (0:ℚ) ≤ 0.3)
    have hw : (1:ℚ) * 0.3 + 1 * 0.2 + 1 * 0.2 + 1 * 0.3 = 1 := by norm_num
    linarith

/-- Witness for C5 at an extreme input: 40000 functions, 600 tables,
70000 memory pages, 12345 KB. -/
theorem complexity_factor_bounds_witness :
    0 ≤ (12345 : ℚ) ∧
    (0 ≤ calculate_complexity_factor 40000 600 70000 12345 ∧
     calculate_complexity_factor 40000 600 70000 12345 ≤ 1) :=
  ⟨by norm_num, complexity_factor_bounds 40000 600 70000 12345 (by norm_num)⟩

/-- Counterexample to claim C6 as stated: raising `memory_pages` from 0
to `u64::MAX` with every other input fixed drops the total cost from
50000 to 40000, because `memory_pages as i64` wraps to `-1`. -/
theorem estimateGas_monotonicity_fails_at_wrap :
    maxMemModule0.memory_pages ≤ maxMemModule.memory_pages ∧
    maxMemModule0.function_count = maxMemModule.function_count ∧
    maxMemModule0.table_count = maxMemModule.table_count ∧
    maxMemModule0.data_section_size = maxMemModule.data_section_size ∧
    (estimate_gas 0 maxMemModule).total_cost_stroops <
      (estimate_gas 0 maxMemModule0).total_cost_stroops := by
  decide

/-- Claim C6 (amended): within the `i64`-exact regime — byte length
below `2^53`, `u32` counts below `2^32`, `memory_pages` at most `2^48`
— `total_cost` never decreases when the byte length, the function
count, the table count, the data-section entry count or the memory-page
count grows, the other inputs held fixed (proved jointly).  At the i64
wrap an increase of `memory_pages` can decrease the total
(`estimateGas_monotonicity_fails_at_wrap`). -/
theorem estimateGas_total_cost_monotone_inrange :
    ∀ (len len' : Nat) (v v' : WasmValidationResult),
      len' < 2^53 → v'.function_count < 2^32 → v'.table_count < 2^32 →
      v'.data_section_size < 2^32 → v'.memory_pages ≤ 2^48 →
      len ≤ len' →
      v.function_count ≤ v'.function_count →
      v.table_count ≤ v'.table_count →
      v.data_section_size ≤ v'.data_section_size →
      v.memory_pages ≤ v'.memory_pages →
      (estimate_gas len v).total_cost_stroops ≤
        (estimate_gas len' v').total_cost_stroops := by
  intro len len' v v' hlen' hfc' htc' hds' hmp' hlen hfc htc hds hmp
  rw [estimateGas_total_inrange len v (lt_of_le_of_lt hlen hlen')
        (lt_of_le_of_lt hfc hfc') (lt_of_le_of_lt htc htc')
        (lt_of_le_of_lt hds hds') (le_trans hmp hmp'),
      estimateGas_total_inrange len' v' hlen' hfc' htc' hds' hmp']
  simp only [BASE_DEPLOYMENT_COST, COST_PER_KB, COST_PER_FUNCTION,
    COST_PER_TABLE, COST_PER_MEMORY_PAGE]
  omega

/-- Witness for the amended C6: a 1000-byte module against a 3000-byte
module that is larger in every count. -/
theorem estimateGas_total_cost_monotone_inrange_witness :
    (3000 < 2^53 ∧ exampleModuleLarger.function_count < 2^32 ∧
     exampleModuleLarger.table_count < 2^32 ∧
     exampleModuleLarger.data_section_size < 2^32 ∧
     exampleModuleLarger.memory_pages ≤ 2^48 ∧
     1000 ≤ 3000 ∧
     exampleModule.function_count ≤ exampleModuleLarger.function_count ∧
     exampleModule.table_count ≤ exampleModuleLarger.table_count ∧
     exampleModule.data_section_size ≤ exampleModuleLarger.data_section_size ∧
     exampleModule.memory_pages ≤ exampleModuleLarger.memory_pages) ∧
    (estimate_gas 1000 exampleModule).total_cost_stroops ≤
      (estimate_gas 3000 exampleModuleLarger).total_cost_stroops :=
  ⟨⟨by decide, by decide, by decide, by decide, by decide, by decide,
    by decide, by decide, by decide, by decide⟩,
   estimateGas_total_cost_monotone_inrange 1000 3000 exampleModule
     exampleModuleLarger (by decide) (by decide) (by decide) (by decide)
     (by decide) (by decide) (by decide) (by decide) (by decide) (by decide)⟩

/-- Claim C7: on every path on which `simulate_deploy` returns
`valid = false` — base64 failure, empty buffer, bad identifier, empty
name, or structural invalidity — the gas estimate and the performance
metrics of the result are the all-zero placeholders. -/
theorem simulateDeploy_invalid_zeroed :
    ∀ (d : Except String (List Nat)) (ps : List ParseItem)
      (c : Except String Unit) (n : String) (t : Nat),
      (simulate_deploy d ps c n t).valid = false →
      (simulate_deploy d ps c n t).gas_estimate = zeroGas ∧
      (simulate_deploy d ps c n t).performance_metrics = zeroPerf := by
  intro d ps c n t
  cases d with
  | error e => intro _; exact ⟨rfl, rfl⟩
  | ok bs =>
    simp only [simulate_deploy]
    by_cases hbs : bs.isEmpty
    · rw [if_pos hbs]; intro _; exact ⟨rfl, rfl⟩
    · rw [if_neg hbs]
      cases c with
      | error e => intro _; exact ⟨rfl, rfl⟩
      | ok u =>
        by_cases hn : n.isEmpty
        · rw [if_pos hn]; intro _; exact ⟨rfl, rfl⟩
        · rw [if_neg hn]
          by_cases hv : (validate_wasm ps).valid
          · rw [if_neg (by simp [hv])]
            intro h
            exact absurd h (by simp)
          · rw [if_pos (by simp [hv])]
            intro _; exact ⟨rfl, rfl⟩

/-- Witness for C7 at a failed base64 decode. -/
theorem simulateDeploy_invalid_zeroed_witness :
    (simulate_deploy (.error "bad pad") [] (.ok ()) "n" 0).valid = false ∧
    ((simulate_deploy (.error "bad pad") [] (.ok ()) "n" 0).gas_estimate =
      zeroGas ∧
     (simulate_deploy (.error "bad pad") [] (.ok ()) "n" 0).performance_metrics =
      zeroPerf) :=
  ⟨rfl, simulateDeploy_invalid_zeroed (.error "bad pad") [] (.ok ()) "n" 0 rfl⟩

/-- Claim C3: the four input checks short-circuit in the fixed order
decode, non-empty buffer, identifier, name, each returning a result with
`valid = false` and exactly one error entry tied to the offending field
(codes `InvalidBase64`, `EmptyWasm`, `InvalidContractId`, `InvalidName`
— the spec's `InvalidEncoding`/`EmptyModule`/`InvalidIdentifier`/
`InvalidName` classes) and zeroed cost and performance data. -/
theorem simulateDeploy_failfast_order :
    (∀ (e : String) (ps : List ParseItem) (c : Except String Unit)
       (n : String) (t : Nat),
      simulate_deploy (.error e) ps c n t =
        failResult "InvalidBase64"
          ("Failed to decode base64 WASM binary: " ++ e) "wasm_binary") ∧
    (∀ (ps : List ParseItem) (c : Except String Unit) (n : String) (t : Nat),
      simulate_deploy (.ok []) ps c n t =
        failResult "EmptyWasm" "WASM binary is empty" "wasm_binary") ∧
    (∀ (bs : List Nat) (ps : List ParseItem) (e : String) (n : String)
       (t : Nat), bs ≠ [] →
      simulate_deploy (.ok bs) ps (.error e) n t =
        failResult "InvalidContractId" e "contract_id") ∧
    (∀ (bs : List Nat) (ps : List ParseItem) (t : Nat), bs ≠ [] →
      simulate_deploy (.ok bs) ps (.ok ()) "" t =
        failResult "InvalidName" "Contract name cannot be empty" "name") := by
  refine ⟨fun e ps c n t => rfl, fun ps c n t => rfl, ?_, ?_⟩
  · intro bs ps e n t hbs
    simp only [simulate_deploy]
    rw [if_neg (by simpa using hbs)]
  · intro bs ps t hbs
    simp only [simulate_deploy]
    rw [if_neg (by simpa using hbs), if_pos (show ("".isEmpty = true) from rfl)]

/-- Witness for C3: the identifier and name checks at concrete inputs
with a non-empty decoded buffer. -/
theorem simulateDeploy_failfast_order_witness :
    ([1] ≠ ([] : List Nat)) ∧
    simulate_deploy (.ok [1]) [] (.error "bad id") "n" 0 =
      failResult "InvalidContractId" "bad id" "contract_id" ∧
    simulate_deploy (.ok [1]) [] (.ok ()) "" 0 =
      failResult "InvalidName" "Contract name cannot be empty" "name" :=
  ⟨by decide,
   simulateDeploy_failfast_order.2.2.1 [1] [] "bad id" "n" 0 (by decide),
   simulateDeploy_failfast_order.2.2.2 [1] [] 0 (by decide)⟩

/-- Claim C8: the performance analyzer emits exactly one
`FunctionAnalysis` per entry of the report's export list, in the list's
order, and each analysis is classified by the spec's priority rules
(`classifySpecRules`): accessor name → low; iterate/batch name → high
with pagination advice; else a matching preview entry with more than 5
guessed parameters → medium with grouping advice; else a matching entry
→ low; else unknown. -/
theorem analyzePerformance_per_export_classification :
    (∀ (wasm_len : Nat) (v : WasmValidationResult)
       (abi : AbiExtractionResult),
      (analyze_performance wasm_len v abi).function_analysis =
        v.export_functions.map fun n => analyze_function n abi) ∧
    (∀ (n : String) (abi : AbiExtractionResult),
      analyze_function n abi =
        { name := n, complexity := (classifySpecRules n abi).1
          recommendation := (classifySpecRules n abi).2 }) := by
  constructor
  · intro wasm_len v abi; rfl
  · intro n abi
    simp only [analyze_function, classifySpecRules]
    by_cases h1 : (strStarts n "get_" || strHasSub n "_view") = true
    · rw [if_pos h1, if_pos h1]
    · rw [if_neg h1, if_neg h1]
      by_cases h2 : (strHasSub n "iterate" || strHasSub n "batch") = true
      · rw [if_pos h2, if_pos h2]
      · rw [if_neg h2, if_neg h2]
        rcases hf : abi.functions.find? (fun f => f.name == n) with _ | f
        · have hany : (abi.functions.any fun f => f.name == n) = false := by
            rw [List.any_eq_false]
            intro x hx
            simpa using List.find?_eq_none.mp hf x hx
          rw [hany]
          simp [hf]
        · have hany : (abi.functions.any fun f => f.name == n) = true := by
            rw [List.any_eq_true]
            exact ⟨f, List.mem_of_find?_eq_some hf,
              by simpa using List.find?_some hf⟩
          rw [hany]
          simp [hf]

/-- One loop step leaves `export_functions` unchanged except for an
export section, which appends the names of its `Ok` entries. -/
theorem processPayload_export_functions (st : ScanState) (p : ParseItem) :
    (processPayload st p).export_functions =
      st.export_functions ++ itemExportNames p := by
  cases p with
  | error e => simp [processPayload, itemExportNames]
  | ok pl =>
    cases pl <;> simp only [processPayload, itemExportNames] <;>
      (try split) <;> simp

/-- The scan accumulates exactly the export names of the stream, in
order, on top of whatever the state already holds. -/
theorem scan_export_functions (ps : List ParseItem) (st : ScanState) :
    (ps.foldl processPayload st).export_functions =
      st.export_functions ++ allExportNames ps := by
  induction ps generalizing st with
  | nil => simp [allExportNames]
  | cons p ps ih =>
    rw [List.foldl_cons, ih, processPayload_export_functions]
    simp [allExportNames]

/-- Claim C10: the validator records the name of every `Ok` entry of
every export section regardless of export kind, and the performance
analyzer therefore emits one `FunctionAnalysis` per such export: on a
stream whose only exports are a table, a memory and a global, the report
lists all three names and the analyzer analyzes all three. -/
theorem exportNames_kind_agnostic :
    (∀ ps : List ParseItem,
      (validate_wasm ps).export_functions = allExportNames ps) ∧
    (validate_wasm demoExportPayloads).export_functions = ["t", "m", "g"] ∧
    (∀ abi : AbiExtractionResult,
      ((analyze_performance 0 (validate_wasm demoExportPayloads)
          abi).function_analysis.map fun a => a.name) = ["t", "m", "g"]) := by
  refine ⟨?_, by decide, ?_⟩
  · intro ps
    simp only [validate_wasm]
    exact scan_export_functions ps initScanState
  · intro abi; rfl

end SorobanSim
